import Mathlib

/-!
Shallow embedding of the native-tree-finder server pipeline
(`src/server/routes.ts`, GBIF variant, together with the storage layers in
`src/server/storage.ts` and the in-memory storage variant), and proofs of
the specification claims about it.

Modelling conventions:
* JavaScript strings are modelled by Lean `String`; lengths and slices are
  counted in characters (the code only ever handles BMP text, where this
  agrees with UTF-16 code units).
* A JavaScript field that can be `null`/`undefined`/`""` (all falsy where
  the code tests it with `if (x)` or `x || d`) is modelled as a `String`
  with `""` standing for the falsy values, or as an `Option` where the code
  distinguishes `null` from a value (record fields such as `imageUrl`).
* JavaScript `Map` objects are modelled as insertion-ordered association
  lists, matching `Map`'s iteration-order semantics; `Map.set` on an
  existing key updates in place, on a fresh key appends.
* Floating-point percentages are modelled over `ℚ`.  For the occurrence
  counts handled here (integers up to a few hundred) the double-precision
  comparisons `x > 0.5` and `x < 0.2` coincide with the exact rational
  comparisons, since the gap between any quotient of such integers and the
  thresholds far exceeds the rounding error of one division.
-/

set_option maxRecDepth 16384

/-- Containment of a contiguous character segment, the model of JavaScript
`String.prototype.includes` on the underlying character lists. -/
def listContainsSeg (pat : List Char) : List Char → Bool
  | [] => pat.isEmpty
  | c :: rest => pat.isPrefixOf (c :: rest) || listContainsSeg pat rest

/-- `strContains s pat` models the JavaScript expression `s.includes(pat)`. -/
def strContains (s pat : String) : Bool :=
  listContainsSeg pat.data s.data

/-- Model of JavaScript `toLowerCase()` (character-wise lowering; the code
only lowercases ASCII vernacular names). -/
def lowerStr (s : String) : String :=
  ⟨s.data.map Char.toLower⟩

/-- Split a character list on the space character, the model of JavaScript
`split(' ')` (each single space separates; consecutive spaces yield empty
tokens). -/
def splitOnSpace : List Char → List (List Char)
  | [] => [[]]
  | c :: rest =>
    let r := splitOnSpace rest
    if c == ' ' then [] :: r
    else (c :: r.headD []) :: r.tail

/-- Tree families used by the GBIF pipeline (`TREE_FAMILIES` in
`src/server/routes.ts`). -/
def TREE_FAMILIES : List String :=
  ["Fagaceae", "Pinaceae", "Aceraceae", "Betulaceae",
   "Salicaceae", "Cupressaceae", "Juglandaceae",
   "Ulmaceae", "Magnoliaceae", "Platanaceae",
   "Taxaceae", "Taxodiaceae", "Araucariaceae"]

/-- Exclusion keywords of `isLikelyTree` (vernacular-name evidence that the
taxon is not a tree). -/
def exclusionKeywords : List String :=
  ["shrub", "bush", "herb", "vine", "grass", "fern", "moss",
   "sedge", "rush", "bramble", "weed", "flower",
   "dewberry", "raspberry", "blackberry", "strawberry", "blueberry", "cranberry",
   "huckleberry", "gooseberry", "elderberry", "currant", "rose",
   "avens", "mallow", "cinquefoil", "clover", "vetch",
   "goosefoot", "chickweed", "knotweed", "smartweed", "pigweed",
   "amaranth", "plantain", "purslane", "lambsquarters", "nettle"]

/-- Tree exceptions of `isLikelyTree`: names containing these are trees even
though they contain an exclusion keyword. -/
def treeExceptions : List String :=
  ["cherry", "hackberry", "mulberry", "serviceberry", "chokeberry"]

/-- Tree-positive vernacular keywords of `isLikelyTree`. -/
def treeKeywords : List String :=
  ["tree", "oak", "pine", "maple", "birch", "cedar", "fir",
   "spruce", "elm", "ash", "willow", "poplar", "aspen",
   "redwood", "sequoia", "cypress", "juniper", "hemlock",
   "hickory", "walnut", "beech", "sycamore", "magnolia",
   "cottonwood", "basswood", "linden", "dogwood", "buckeye",
   "hornbeam", "hop-hornbeam", "cherry", "hackberry", "mulberry",
   "serviceberry", "chokeberry", "hawthorn", "crabapple"]

/-- Known tree genera whitelist of `isLikelyTree`. -/
def knownTreeGenera : List String :=
  ["Quercus", "Pinus", "Acer", "Betula", "Salix", "Populus",
   "Fraxinus", "Ulmus", "Fagus", "Picea", "Abies", "Tsuga",
   "Sequoia", "Juniperus", "Carya", "Platanus", "Magnolia",
   "Cornus", "Tilia", "Liquidambar", "Nyssa", "Ostrya",
   "Carpinus", "Taxodium", "Larix", "Pseudotsuga", "Thuja",
   "Chamaecyparis", "Cedrus", "Robinia", "Gleditsia", "Juglans",
   "Aesculus", "Liriodendron", "Catalpa", "Prunus", "Celtis",
   "Morus", "Amelanchier", "Sorbus", "Malus", "Pyrus", "Crataegus"]

/-- `vernacularName` contains some exclusion keyword (after lowercasing). -/
def hasExclusionKeyword (lowerName : String) : Bool :=
  exclusionKeywords.any (fun k => strContains lowerName k)

/-- `vernacularName` contains some tree-exception keyword (after
lowercasing). -/
def hasTreeException (lowerName : String) : Bool :=
  treeExceptions.any (fun k => strContains lowerName k)

/-- First space-delimited token of a scientific name: the model of
`scientificName.split(' ')[0]`. -/
def genusOf (scientificName : String) : String :=
  ⟨(splitOnSpace scientificName.data).headD []⟩

/-- The Taxon Classifier `isLikelyTree(scientificName, family,
vernacularName)` of the GBIF pipeline (`src/server/routes.ts`).  An empty
string models a `null`/absent argument (both are falsy where the code tests
them). -/
def isLikelyTree (scientificName family vernacularName : String) : Bool :=
  if vernacularName != "" &&
      (!hasTreeException (lowerStr vernacularName) &&
        hasExclusionKeyword (lowerStr vernacularName)) then
    false
  else if family != "" && TREE_FAMILIES.contains family then
    true
  else if vernacularName != "" &&
      treeKeywords.any (fun k => strContains (lowerStr vernacularName) k) then
    true
  else if scientificName != "" && knownTreeGenera.contains (genusOf scientificName) then
    true
  else
    false

example : isLikelyTree "Prunus serotina" "" "Black Cherry" = true := by decide
example : isLikelyTree "Rubus armeniacus" "Rosaceae" "Himalayan Blackberry" = false := by decide
example : isLikelyTree "Quercus alba" "" "" = true := by decide
example : isLikelyTree "Bellis perennis" "" "common daisy" = false := by decide

/-- The city-name well-formedness check `isInvalidCityName` of
`src/server/routes.ts`: each disjunct models one of the regular expressions
in `invalidPatterns`. -/
def isInvalidCityName (city : String) : Bool :=
  -- /^NonExistent/i, /^Invalid/i, /^Test/i, /^Fake/i, /^MiddleOfNowhere/i, /^NoWhere/i
  (["nonexistent", "invalid", "test", "fake", "middleofnowhere", "nowhere"].any
      (fun p => p.data.isPrefixOf (lowerStr city).data)) ||
  -- /\d{3,}/ : a run of three or more digits
  hasDigitRun city.data ||
  -- /^[^a-zA-Z]/ : a first character that is not an ASCII letter
  (match city.data with
    | [] => false
    | c :: _ => !c.isAlpha) ||
  -- /[^\w\s\-'\.]/i : a character outside word chars, whitespace, - ' .
  city.data.any (fun c => !allowedCityChar c)
where
  /-- A run of three or more consecutive digits (the `\d{3,}` pattern). -/
  hasDigitRun : List Char → Bool
    | [] => false
    | c :: rest =>
      (c.isDigit &&
        (match rest with
          | c2 :: c3 :: _ => c2.isDigit && c3.isDigit
          | _ => false)) || hasDigitRun rest
  /-- Characters matched by `[\w\s\-'\.]` (`\s` restricted to its ASCII
  members, the only ones arising here). -/
  allowedCityChar (c : Char) : Bool :=
    c.isAlphanum || c == '_' ||
    c == ' ' || c == '\t' || c == '\n' || c == '\r' ||
    c == Char.ofNat 11 || c == Char.ofNat 12 ||
    c == '-' || c == Char.ofNat 39 || c == '.'

example : isInvalidCityName "Testville" = true := by decide
example : isInvalidCityName "Austin" = false := by decide
example : isInvalidCityName "Winston-Salem" = false := by decide
example : isInvalidCityName "abc123456" = true := by decide
example : isInvalidCityName "9Lives" = true := by decide
example : isInvalidCityName "Av@S" = true := by decide

/-- Canonical name of a scientific name: the model of
`scientificName.split(' ').slice(0, 2).join(' ')` (first two
space-delimited tokens, dropping authority/subspecies suffixes). -/
def canonicalName (scientificName : String) : String :=
  ⟨(List.intercalate [' '] ((splitOnSpace scientificName.data).take 2))⟩

example : canonicalName "Prunus laurocerasus L." = "Prunus laurocerasus" := by decide
example : canonicalName "Ailanthus altissima" = "Ailanthus altissima" := by decide
example : canonicalName "Quercus" = "Quercus" := by decide

/-- The invasive-species blocklist `INVASIVE_BLOCKLIST` of
`src/server/routes.ts` (a JavaScript `Set` of canonical names). -/
def INVASIVE_BLOCKLIST : List String :=
  ["Prunus laurocerasus",
   "Prunus lusitanica",
   "Ailanthus altissima",
   "Paulownia tomentosa",
   "Melia azedarach",
   "Elaeagnus angustifolia",
   "Ligustrum lucidum",
   "Albizia julibrissin",
   "Pyrus calleryana",
   "Cinnamomum camphora",
   "Triadica sebifera"]

/-- The statistical vote `shouldInclude` of the native-status filter
(`src/server/routes.ts`): include iff more than half the occurrences are
labelled NATIVE, or fewer than a fifth are labelled
INTRODUCED/INVASIVE/NATURALISED.  The histogram is a total function with
default `0`, the model of `map.get(k) || 0`. -/
def shouldInclude (totalOccurrences : Nat) (establishmentCounts : String → Nat) : Bool :=
  let nativeCount := establishmentCounts "NATIVE"
  let introducedCount := establishmentCounts "INTRODUCED" +
    establishmentCounts "INVASIVE" + establishmentCounts "NATURALISED"
  let nativePercent : ℚ := (nativeCount : ℚ) / (totalOccurrences : ℚ)
  let introducedPercent : ℚ := (introducedCount : ℚ) / (totalOccurrences : ℚ)
  decide (nativePercent > 1/2) || decide (introducedPercent < 1/5)

/-- The Native-Status Evaluator: the per-species decision made by the
filtering loop of `src/server/routes.ts` (blocklist check on the canonical
name first, with `continue`, then the statistical vote `shouldInclude`). -/
def speciesIsNative (scientificName : String) (totalOccurrences : Nat)
    (establishmentCounts : String → Nat) : Bool :=
  if INVASIVE_BLOCKLIST.contains (canonicalName scientificName) then false
  else shouldInclude totalOccurrences establishmentCounts

/-- One GBIF occurrence record, as read by the aggregation loop of
`src/server/routes.ts`.  `speciesKey = 0` models a falsy (missing) key and
`""` models a missing string field, matching the `||` defaulting in the
code. -/
structure Occurrence where
  speciesKey : Nat
  scientificName : String
  family : String
  vernacularName : String
  establishmentMeans : String
deriving DecidableEq, Repr

/-- The per-taxon aggregate stored in the `uniqueTreeSpecies` map: the
first-seen metadata, the running occurrence count and the
establishment-means histogram (a total function with default `0`). -/
structure TaxAgg where
  scientificName : String
  family : String
  vernacularName : String
  count : Nat
  establishmentCounts : String → Nat

/-- Whether the aggregation loop keeps an occurrence: key and scientific
name present (truthy) and the Taxon Classifier accepts it. -/
def occPasses (o : Occurrence) : Bool :=
  o.speciesKey != 0 && o.scientificName != "" &&
    isLikelyTree o.scientificName o.family o.vernacularName

/-- Effective establishment means of an occurrence, the model of
`occurrence.establishmentMeans || 'UNKNOWN'`. -/
def effMeans (o : Occurrence) : String :=
  if o.establishmentMeans = "" then "UNKNOWN" else o.establishmentMeans

/-- Increment one bucket of an establishment-means histogram, the model of
`map.set(em, (map.get(em) || 0) + 1)`. -/
def bumpHist (h : String → Nat) (e : String) : String → Nat :=
  fun s => if s = e then h e + 1 else h s

/-- Lookup in the insertion-ordered association list modelling a JavaScript
`Map` keyed by `speciesKey`. -/
def lookupKey (m : List (Nat × TaxAgg)) (k : Nat) : Option TaxAgg :=
  (m.find? (fun p => p.1 == k)).map Prod.snd

/-- The in-place update applied to an existing aggregate when one more
occurrence is seen: `existing.count += 1` and one histogram bump. -/
def bumpAgg (o : Occurrence) (a : TaxAgg) : TaxAgg :=
  { a with
    count := a.count + 1,
    establishmentCounts := bumpHist a.establishmentCounts (effMeans o) }

/-- One iteration of the aggregation loop of `src/server/routes.ts`: skip
occurrences without key/name or rejected by the classifier; otherwise bump
the existing aggregate in place, or append a fresh aggregate carrying the
occurrence's metadata. -/
def addOccurrence (m : List (Nat × TaxAgg)) (o : Occurrence) : List (Nat × TaxAgg) :=
  if occPasses o then
    if (lookupKey m o.speciesKey).isSome then
      m.map (fun p => if p.1 == o.speciesKey then (p.1, bumpAgg o p.2) else p)
    else
      m ++ [(o.speciesKey,
             { scientificName := o.scientificName,
               family := o.family,
               vernacularName := o.vernacularName,
               count := 1,
               establishmentCounts := bumpHist (fun _ => 0) (effMeans o) })]
  else m

/-- The Occurrence Aggregator: the `uniqueTreeSpecies` map built by folding
the aggregation loop over the occurrence list. -/
def uniqueTreeSpecies (occurrences : List Occurrence) : List (Nat × TaxAgg) :=
  occurrences.foldl addOccurrence []

/-- The observable part of an aggregate map at one key: presence, the
occurrence count and the establishment-means histogram (the data used by
the native-status filter; the metadata fields are first-seen and are
treated separately). -/
def observeAgg (m : List (Nat × TaxAgg)) (k : Nat) : Option (Nat × (String → Nat)) :=
  (lookupKey m k).map (fun a => (a.count, a.establishmentCounts))

/-- Two aggregate maps are observation-equivalent when they agree, at every
key, on presence, occurrence count and establishment-means histogram. -/
def AggObsEquiv (m₁ m₂ : List (Nat × TaxAgg)) : Prop :=
  ∀ k, observeAgg m₁ k = observeAgg m₂ k

/-- The native-status filtering step of the pipeline: the entries of
`uniqueTreeSpecies` surviving the blocklist check and the statistical vote
(the code copies the surviving entries into a second map
`nativeTreeSpecies`, dropping the histogram; only key and count are used
afterwards, so the filtered list is kept as is). -/
def nativeTreeSpeciesOf (m : List (Nat × TaxAgg)) : List (Nat × TaxAgg) :=
  m.filter (fun p => speciesIsNative p.2.scientificName p.2.count p.2.establishmentCounts)

example :
    (lookupKey (uniqueTreeSpecies
      [{ speciesKey := 7, scientificName := "Quercus alba", family := "",
         vernacularName := "", establishmentMeans := "NATIVE" },
       { speciesKey := 7, scientificName := "Quercus alba", family := "",
         vernacularName := "", establishmentMeans := "" }]) 7).map TaxAgg.count
    = some 2 := by decide

example :
    ((observeAgg (uniqueTreeSpecies
      [{ speciesKey := 7, scientificName := "Quercus alba", family := "",
         vernacularName := "", establishmentMeans := "NATIVE" },
       { speciesKey := 7, scientificName := "Quercus alba", family := "",
         vernacularName := "", establishmentMeans := "" }]) 7).map
        (fun x => x.2 "UNKNOWN")) = some 1 := by decide

/-- Stable descending insertion by occurrence count. -/
def insertByCountDesc (x : Nat × TaxAgg) : List (Nat × TaxAgg) → List (Nat × TaxAgg)
  | [] => [x]
  | y :: ys => if y.2.count < x.2.count then x :: y :: ys else y :: insertByCountDesc x ys

/-- The ranking step `sort((a, b) => b[1].count - a[1].count)`: a stable
descending sort by occurrence count (ECMAScript sorts are stable, so the
stable insertion sort is extensionally the code's sort). -/
def sortByCountDesc (l : List (Nat × TaxAgg)) : List (Nat × TaxAgg) :=
  l.foldl (fun acc x => insertByCountDesc x acc) []

/-- A persisted species record (`TreeSpecies` row of `@shared/schema`).
Generated identities are modelled as naturals handed out by a counter. -/
structure TreeSpeciesRec where
  id : Nat
  commonName : String
  scientificName : String
  imageUrl : Option String
  habitatDescription : String
  maxHeight : Option Int
  maxAge : Option Int
  city : String
  state : String
  externalId : Option String
deriving DecidableEq, Repr

/-- The fields of an insert (`InsertTreeSpecies` of `@shared/schema`: all
columns except the generated `id`). -/
structure InsertTreeSpecies where
  commonName : String
  scientificName : String
  imageUrl : Option String
  habitatDescription : String
  maxHeight : Option Int
  maxAge : Option Int
  city : String
  state : String
  externalId : Option String
deriving DecidableEq, Repr

/-- The in-memory persistent store (`MemStorage` of the unnamed storage
variant): the `Map` of records in insertion order, plus the counter that
models `randomUUID()`'s supply of fresh identities. -/
structure Store where
  treeSpecies : List TreeSpeciesRec
  nextId : Nat
deriving DecidableEq, Repr

/-- `MemStorage.getTreeSpeciesByLocation`: case-insensitive filter on city
and state. -/
def getTreeSpeciesByLocation (st : Store) (city state : String) : List TreeSpeciesRec :=
  st.treeSpecies.filter (fun r =>
    lowerStr r.city == lowerStr city && lowerStr r.state == lowerStr state)

/-- `MemStorage.getTreeSpeciesByExternalId`: first record whose (nullable)
`externalId` equals the given id. -/
def getTreeSpeciesByExternalId (st : Store) (externalId : String) :
    Option TreeSpeciesRec :=
  st.treeSpecies.find? (fun r => r.externalId == some externalId)

/-- `MemStorage.createTreeSpecies`: assign a fresh identity, store and
return the new record. -/
def createTreeSpecies (st : Store) (ins : InsertTreeSpecies) :
    TreeSpeciesRec × Store :=
  let r : TreeSpeciesRec :=
    { id := st.nextId,
      commonName := ins.commonName,
      scientificName := ins.scientificName,
      imageUrl := ins.imageUrl,
      habitatDescription := ins.habitatDescription,
      maxHeight := ins.maxHeight,
      maxAge := ins.maxAge,
      city := ins.city,
      state := ins.state,
      externalId := ins.externalId }
  (r, { treeSpecies := st.treeSpecies ++ [r], nextId := st.nextId + 1 })

/-- `DatabaseStorage.getTreeSpeciesByLocation` (`src/server/storage.ts`):
the rows whose city and state columns equal the arguments exactly
(Postgres `=` on `text` is case-sensitive). -/
def dbGetTreeSpeciesByLocation (rows : List TreeSpeciesRec) (city state : String) :
    List TreeSpeciesRec :=
  rows.filter (fun r => r.city == city && r.state == state)

/-- The enriched detail record assembled by `getGBIFSpeciesDetails`.  `""`
models a missing `description`; `commonName` falls back to the scientific
name inside the fetcher and is a plain string. -/
structure DetailRecord where
  speciesKey : Nat
  scientificName : String
  commonName : String
  family : String
  imageUrl : Option String
  description : String
deriving DecidableEq, Repr

/-- The generic habitat template used when the detail source has no
description. -/
def genericHabitat (city state : String) : String :=
  "Native tree species found in the " ++ city ++ ", " ++ state ++
    " region. This species is naturally adapted to local climate conditions and provides important ecosystem services."

/-- Habitat text as stored by the GBIF pipeline (`src/server/routes.ts`,
species-creation step): `habitat.slice(0, 300) +
(habitat.length > 300 ? "..." : "")`. -/
def storedHabitatDescription (habitat : String) : String :=
  ⟨habitat.data.take 300⟩ ++ (if habitat.length > 300 then "..." else "")

/-- Habitat text as stored by the iNaturalist pipeline variants
(`src/server/routes.ts`, first variant): `habitat.slice(0, 300) + "..."`,
with the ellipsis appended unconditionally. -/
def storedHabitatDescriptionINat (habitat : String) : String :=
  ⟨habitat.data.take 300⟩ ++ "..."

/-- The observable effects of one search: persistent-store operations and
outbound network calls, in program order. -/
inductive Eff where
  | storeGetByLocation (city state : String)
  | geocodeCall
  | gbifCall
  | detailCall (speciesKey : Nat)
  | storeGetByExternalId (externalId : String)
  | storeCreate
deriving DecidableEq, Repr

/-- Outcome of one search request: the Zod 400, the catch-all 503-style
500, or the JSON success payload (whose `count` field the code always sets
to `species.length`). -/
inductive SearchOutcome where
  | validationError
  | serviceUnavailable
  | ok (species : List TreeSpeciesRec) (location : String) (count : Nat)
deriving DecidableEq, Repr

/-- Geocoder result; the coordinates are only logged by the pipeline, never
used, so their numeric type is irrelevant. -/
structure GeoCoords where
  lat : Int
  lon : Int
deriving DecidableEq, Repr

/-- The external collaborators of one search, as oracles: the geocoder
(`none` models not-found and caught transport errors, which the code folds
together), the GBIF occurrence search (`none` models a thrown error or
non-ok status) and the per-key detail source (`none` models any individual
lookup failure). -/
structure World where
  geocode : Option GeoCoords
  gbif : Option (List Occurrence)
  details : Nat → Option DetailRecord

/-- The Species Resolver loop body of the GBIF pipeline: skip details
without a scientific name or rejected by the second-pass classifier;
clone the descriptive fields of an existing record with the same
`externalId` into a new record for this location; otherwise derive the
habitat text and create a fresh record. -/
def resolveStep (city state : String)
    (acc : List TreeSpeciesRec × Store × List Eff) (d : DetailRecord) :
    List TreeSpeciesRec × Store × List Eff :=
  let res := acc.1
  let st := acc.2.1
  let tr := acc.2.2
  if d.scientificName == "" then (res, st, tr)
  else if !(isLikelyTree d.scientificName d.family d.commonName) then (res, st, tr)
  else
    let tr := tr ++ [Eff.storeGetByExternalId (toString d.speciesKey)]
    match getTreeSpeciesByExternalId st (toString d.speciesKey) with
    | some existing =>
      let (r, st') := createTreeSpecies st
        { commonName := existing.commonName,
          scientificName := existing.scientificName,
          imageUrl := existing.imageUrl,
          habitatDescription := existing.habitatDescription,
          maxHeight := existing.maxHeight,
          maxAge := existing.maxAge,
          city := city,
          state := state,
          externalId := existing.externalId }
      (res ++ [r], st', tr ++ [Eff.storeCreate])
    | none =>
      let habitat :=
        if d.description != "" then d.description else genericHabitat city state
      let (r, st') := createTreeSpecies st
        { commonName := (if d.commonName != "" then d.commonName else d.scientificName),
          scientificName := d.scientificName,
          imageUrl := d.imageUrl,
          habitatDescription := storedHabitatDescription habitat,
          maxHeight := none,
          maxAge := none,
          city := city,
          state := state,
          externalId := some (toString d.speciesKey) }
      (res ++ [r], st', tr ++ [Eff.storeCreate])

/-- The search operation of the GBIF pipeline (`POST
/api/tree-species/search` handler in `src/server/routes.ts`), as a function
of the external world, the store and the parsed request, returning the
outcome, the new store and the trace of effects.  The enrichment fetcher's
batching (batch size 3, 200 ms between batches) only affects timing: the
non-null results are concatenated in key order, which `List.filterMap`
models. -/
def searchHandler (w : World) (st : Store) (city state : String) :
    SearchOutcome × Store × List Eff :=
  if 1 ≤ city.length ∧ state.length = 2 then
    if isInvalidCityName city then
      (.ok [] (city ++ ", " ++ state) 0, st, [])
    else
      let cached := getTreeSpeciesByLocation st city state
      if 0 < cached.length then
        (.ok cached (city ++ ", " ++ state) cached.length, st,
         [Eff.storeGetByLocation city state])
      else
        match w.geocode with
        | none =>
          (.ok [] (city ++ ", " ++ state) 0, st,
           [Eff.storeGetByLocation city state, Eff.geocodeCall])
        | some _ =>
          match w.gbif with
          | none =>
            (.serviceUnavailable, st,
             [Eff.storeGetByLocation city state, Eff.geocodeCall, Eff.gbifCall])
          | some occurrences =>
            if occurrences.isEmpty then
              (.ok [] (city ++ ", " ++ state) 0, st,
               [Eff.storeGetByLocation city state, Eff.geocodeCall, Eff.gbifCall])
            else
              let natives := nativeTreeSpeciesOf (uniqueTreeSpecies occurrences)
              if natives.isEmpty then
                (.ok [] (city ++ ", " ++ state) 0, st,
                 [Eff.storeGetByLocation city state, Eff.geocodeCall, Eff.gbifCall])
              else
                let sortedKeys := ((sortByCountDesc natives).take 15).map Prod.fst
                let detailed := sortedKeys.filterMap w.details
                let out := detailed.foldl (resolveStep city state)
                  ([], st,
                   [Eff.storeGetByLocation city state, Eff.geocodeCall, Eff.gbifCall]
                     ++ sortedKeys.map Eff.detailCall)
                (.ok out.1 (city ++ ", " ++ state) out.1.length, out.2.1, out.2.2)
  else
    (.validationError, st, [])

/-- Claim C1: for an aggregate with positive total whose canonical name is
not blocklisted, the Native-Status Evaluator returns true iff strictly more
than half the occurrences are NATIVE or strictly fewer than a fifth are
INTRODUCED + INVASIVE + NATURALISED; in particular, for total 10: six
native occurrences pass, five native with zero introduced pass, and five
native with three introduced fail. -/
theorem native_status_threshold :
    (∀ (scientificName : String) (total : Nat) (hist : String → Nat),
        0 < total →
        INVASIVE_BLOCKLIST.contains (canonicalName scientificName) = false →
        (speciesIsNative scientificName total hist = true ↔
          (total < 2 * hist "NATIVE" ∨
            5 * (hist "INTRODUCED" + hist "INVASIVE" + hist "NATURALISED") < total))) ∧
    speciesIsNative "Quercus alba" 10 (fun s => if s = "NATIVE" then 6 else 0) = true ∧
    speciesIsNative "Quercus alba" 10 (fun s => if s = "NATIVE" then 5 else 0) = true ∧
    speciesIsNative "Quercus alba" 10
      (fun s => if s = "NATIVE" then 5 else if s = "INTRODUCED" then 3 else 0) = false := by
  have gen : ∀ (scientificName : String) (total : Nat) (hist : String → Nat),
      0 < total →
      INVASIVE_BLOCKLIST.contains (canonicalName scientificName) = false →
      (speciesIsNative scientificName total hist = true ↔
        (total < 2 * hist "NATIVE" ∨
          5 * (hist "INTRODUCED" + hist "INVASIVE" + hist "NATURALISED") < total)) := by
    intro scientificName total hist htotal hblock
    have ht : (0 : ℚ) < (total : ℚ) := by exact_mod_cast htotal
    simp only [speciesIsNative, shouldInclude, hblock, Bool.false_eq_true, if_false,
      Bool.or_eq_true, decide_eq_true_eq]
    have h1 : ((hist "NATIVE" : ℚ) / (total : ℚ) > 1/2) ↔ total < 2 * hist "NATIVE" := by
      rw [gt_iff_lt, div_lt_div_iff₀ (by norm_num) ht]
      rw [show (1 : ℚ) * (total : ℚ) = ((total : ℕ) : ℚ) by ring,
        show ((hist "NATIVE" : ℚ)) * 2 = ((2 * hist "NATIVE" : ℕ) : ℚ) by push_cast; ring]
      exact Nat.cast_lt
    have h2 : (((hist "INTRODUCED" : ℚ) + (hist "INVASIVE" : ℚ) + (hist "NATURALISED" : ℚ)) /
          (total : ℚ) < 1/5) ↔
        5 * (hist "INTRODUCED" + hist "INVASIVE" + hist "NATURALISED") < total := by
      rw [div_lt_div_iff₀ ht (by norm_num)]
      rw [show ((hist "INTRODUCED" : ℚ) + (hist "INVASIVE" : ℚ) + (hist "NATURALISED" : ℚ)) * 5 =
          ((5 * (hist "INTRODUCED" + hist "INVASIVE" + hist "NATURALISED") : ℕ) : ℚ) by
          push_cast; ring,
        show (1 : ℚ) * (total : ℚ) = ((total : ℕ) : ℚ) by ring]
      exact Nat.cast_lt
    rw [← h1, ← h2]
    push_cast
    tauto
  refine ⟨gen, ?_, ?_, ?_⟩
  · exact (gen "Quercus alba" 10 _ (by norm_num) (by decide)).mpr (Or.inl (by decide))
  · exact (gen "Quercus alba" 10 _ (by norm_num) (by decide)).mpr (Or.inr (by decide))
  · refine Bool.eq_false_iff.mpr (fun ht => ?_)
    have h := (gen "Quercus alba" 10 _ (by norm_num) (by decide)).mp ht
    exact absurd h (by decide)

/-- Witness for C1 at a concrete aggregate: three native occurrences out of
four for a non-blocklisted name pass the evaluator. -/
theorem native_status_threshold_witness :
    speciesIsNative "Fagus grandifolia" 4 (fun s => if s = "NATIVE" then 3 else 0) = true :=
  (native_status_threshold.1 "Fagus grandifolia" 4
      (fun s => if s = "NATIVE" then 3 else 0) (by decide) (by decide)).mpr
    (Or.inl (by decide))

/-- Claim C2: the evaluator computes the canonical name as the first two
space-delimited tokens and returns false unconditionally for blocklisted
canonical names, before and regardless of the statistical vote; in
particular "Ailanthus altissima" with ten native occurrences out of ten
still evaluates false, also under a subspecies suffix. -/
theorem blocklist_overrides_statistics :
    (∀ (scientificName : String) (total : Nat) (hist : String → Nat),
        INVASIVE_BLOCKLIST.contains (canonicalName scientificName) = true →
        speciesIsNative scientificName total hist = false) ∧
    speciesIsNative "Ailanthus altissima" 10
      (fun s => if s = "NATIVE" then 10 else 0) = false ∧
    canonicalName "Ailanthus altissima subsp. altissima" = "Ailanthus altissima" := by
  refine ⟨?_, by decide, by decide⟩
  intro scientificName total hist hblock
  unfold speciesIsNative
  rw [hblock]
  simp

/-- Witness for C2: the blocklist short-circuit applied to the Callery
pear, again fully native-labelled. -/
theorem blocklist_overrides_statistics_witness :
    speciesIsNative "Pyrus calleryana" 7 (fun s => if s = "NATIVE" then 7 else 0) = false :=
  blocklist_overrides_statistics.1 "Pyrus calleryana" 7
    (fun s => if s = "NATIVE" then 7 else 0) (by decide)

/-- Claim C3: the Taxon Classifier applies the exclusion rule first — a
present vernacular name containing an exclusion keyword and no exception
keyword yields false before any positive rule is consulted; consequently
"Black Cherry" classifies as a tree for every scientific name and family,
and "Himalayan Blackberry" classifies as not a tree for every scientific
name and family. -/
theorem classifier_exclusion_first :
    (∀ (scientificName family vernacularName : String),
        vernacularName ≠ "" →
        hasExclusionKeyword (lowerStr vernacularName) = true →
        hasTreeException (lowerStr vernacularName) = false →
        isLikelyTree scientificName family vernacularName = false) ∧
    (∀ (scientificName family : String),
        isLikelyTree scientificName family "Black Cherry" = true) ∧
    (∀ (scientificName family : String),
        isLikelyTree scientificName family "Himalayan Blackberry" = false) := by
  refine ⟨?_, ?_, ?_⟩
  · intro scientificName family vernacularName h1 h2 h3
    simp [isLikelyTree, h1, h2, h3]
  · intro scientificName family
    simp only [isLikelyTree]
    rw [if_neg (by decide)]
    by_cases hf : (family != "" && TREE_FAMILIES.contains family) = true
    · rw [if_pos hf]
    · rw [if_neg hf, if_pos (by decide)]
  · intro scientificName family
    simp only [isLikelyTree]
    rw [if_pos (by decide)]

/-- Witness for C3: "California Blackberry" (exclusion keyword "blackberry",
no exception keyword) is rejected even with a tree family and a whitelisted
genus. -/
theorem classifier_exclusion_first_witness :
    isLikelyTree "Prunus ursina" "Fagaceae" "California Blackberry" = false :=
  classifier_exclusion_first.1 "Prunus ursina" "Fagaceae" "California Blackberry"
    (by decide) (by decide) (by decide)

/-- The underlying character list of an appended string. -/
theorem strAppend_data (a b : String) : (a ++ b).data = a.data ++ b.data := by
  cases a
  cases b
  rfl

/-- Claim C5 counterexample: in the iNaturalist pipeline variant (lines
155–169 of the concatenated `src/server/routes.ts`, one of the two code
sites the claim cites) the ellipsis is appended unconditionally, so a raw
description of 200 characters is stored as 203 characters, not 200. -/
theorem truncation_counterexample :
    (String.mk (List.replicate 200 'a')).length = 200 ∧
    (storedHabitatDescriptionINat (String.mk (List.replicate 200 'a'))).length = 203 := by
  constructor <;> decide

/-- Claim C5 amended: in the GBIF pipeline the stored habitat text is the
description truncated to 300 characters with the ellipsis appended exactly
when truncation occurred (length 400 gives 303, length 200 gives 200, and
any description of at most 300 characters is stored unchanged); the
iNaturalist variant instead appends the ellipsis unconditionally (length
200 gives 203). -/
theorem truncation_amended :
    (∀ habitat : String,
        (storedHabitatDescription habitat).length =
          min habitat.length 300 + (if 300 < habitat.length then 3 else 0)) ∧
    (storedHabitatDescription (String.mk (List.replicate 400 'a'))).length = 303 ∧
    (storedHabitatDescription (String.mk (List.replicate 200 'a'))).length = 200 ∧
    (∀ habitat : String, habitat.length ≤ 300 → storedHabitatDescription habitat = habitat) ∧
    (storedHabitatDescriptionINat (String.mk (List.replicate 200 'a'))).length = 203 := by
  refine ⟨?_, by decide, by decide, ?_, by decide⟩
  · intro habitat
    unfold storedHabitatDescription
    by_cases h : 300 < habitat.length
    · rw [if_pos h, if_pos h]
      show ((⟨habitat.data.take 300⟩ : String) ++ "...").data.length = _
      rw [strAppend_data]
      have hlen : habitat.length = habitat.data.length := rfl
      simp only [List.length_append, List.length_take, List.length_cons, List.length_nil]
      omega
    · rw [if_neg h, if_neg h]
      show ((⟨habitat.data.take 300⟩ : String) ++ "").data.length = _
      rw [strAppend_data]
      have hlen : habitat.length = habitat.data.length := rfl
      simp only [List.length_append, List.length_take, List.length_cons, List.length_nil]
      omega
  · intro habitat hle
    unfold storedHabitatDescription
    rw [if_neg (by omega)]
    obtain ⟨l⟩ := habitat
    have hl : l.length ≤ 300 := hle
    show String.mk (l.take 300 ++ []) = String.mk l
    rw [List.append_nil, List.take_of_length_le hl]

/-- Witness for C5's amended statement: a concrete short description is
stored verbatim. -/
theorem truncation_amended_witness :
    storedHabitatDescription "A hardy deciduous tree." = "A hardy deciduous tree." :=
  truncation_amended.2.2.2.1 "A hardy deciduous tree." (by decide)

/-- Claim C10 counterexample: a store holding one record located at
("austin", "tx") answers the query ("Austin", "TX") differently in the two
storage implementations — `MemStorage` matches case-insensitively and
returns the record, `DatabaseStorage` compares exactly and returns
nothing. -/
theorem storage_location_lookup_counterexample :
    getTreeSpeciesByLocation
      { treeSpecies := [{ id := 0, commonName := "white oak",
                          scientificName := "Quercus alba", imageUrl := none,
                          habitatDescription := "d", maxHeight := none,
                          maxAge := none, city := "austin", state := "tx",
                          externalId := some "5" }], nextId := 1 }
      "Austin" "TX" ≠
    dbGetTreeSpeciesByLocation
      [{ id := 0, commonName := "white oak",
         scientificName := "Quercus alba", imageUrl := none,
         habitatDescription := "d", maxHeight := none,
         maxAge := none, city := "austin", state := "tx",
         externalId := some "5" }]
      "Austin" "TX" := by
  decide

/-- Claim C10 amended: every record `DatabaseStorage.getTreeSpeciesByLocation`
returns is also returned by `MemStorage.getTreeSpeciesByLocation` (exact
equality implies case-insensitive equality), and the two results coincide
whenever every stored record that matches the query case-insensitively
matches it exactly. -/
theorem storage_location_lookup_amended :
    (∀ (st : Store) (city state : String),
        ∀ r ∈ dbGetTreeSpeciesByLocation st.treeSpecies city state,
          r ∈ getTreeSpeciesByLocation st city state) ∧
    (∀ (st : Store) (city state : String),
        (∀ r ∈ st.treeSpecies,
            lowerStr r.city = lowerStr city ∧ lowerStr r.state = lowerStr state →
              r.city = city ∧ r.state = state) →
        getTreeSpeciesByLocation st city state =
          dbGetTreeSpeciesByLocation st.treeSpecies city state) := by
  constructor
  · intro st city state r hr
    simp only [dbGetTreeSpeciesByLocation, List.mem_filter, Bool.and_eq_true,
      beq_iff_eq] at hr
    obtain ⟨hmem, hcity, hstate⟩ := hr
    simp only [getTreeSpeciesByLocation, List.mem_filter, Bool.and_eq_true, beq_iff_eq]
    exact ⟨hmem, by rw [hcity], by rw [hstate]⟩
  · intro st city state hcase
    unfold getTreeSpeciesByLocation dbGetTreeSpeciesByLocation
    apply List.filter_congr
    intro r hr
    cases hmem : (lowerStr r.city == lowerStr city && lowerStr r.state == lowerStr state) with
    | false =>
      cases hexact : (r.city == city && r.state == state) with
      | false => rfl
      | true =>
        simp only [Bool.and_eq_true, beq_iff_eq] at hexact
        obtain ⟨h1, h2⟩ := hexact
        rw [h1, h2] at hmem
        simp at hmem
    | true =>
      simp only [Bool.and_eq_true, beq_iff_eq] at hmem
      obtain ⟨h1, h2⟩ := hcase r hr hmem
      rw [h1, h2]
      simp

/-- Claim C6: when the enriched detail record's externalId already exists in
the store (for any location) and the record passes the second-pass
classifier, the resolver persists a new record with a fresh identity and
the requested city and state whose descriptive fields (commonName,
scientificName, imageUrl, habitatDescription, maxHeight, maxAge,
externalId) equal those of the existing record — in particular the habitat
text is copied, not re-derived. -/
theorem resolver_dedup_clones_descriptive_fields
    (city state : String) (res : List TreeSpeciesRec) (st : Store) (tr : List Eff)
    (d : DetailRecord) (ex : TreeSpeciesRec)
    (hname : d.scientificName ≠ "")
    (htree : isLikelyTree d.scientificName d.family d.commonName = true)
    (hex : getTreeSpeciesByExternalId st (toString d.speciesKey) = some ex)
    (hwf : ∀ r ∈ st.treeSpecies, r.id < st.nextId) :
    ∃ r : TreeSpeciesRec,
      resolveStep city state (res, st, tr) d =
        (res ++ [r],
         { treeSpecies := st.treeSpecies ++ [r], nextId := st.nextId + 1 },
         tr ++ [Eff.storeGetByExternalId (toString d.speciesKey), Eff.storeCreate]) ∧
      r.commonName = ex.commonName ∧
      r.scientificName = ex.scientificName ∧
      r.imageUrl = ex.imageUrl ∧
      r.habitatDescription = ex.habitatDescription ∧
      r.maxHeight = ex.maxHeight ∧
      r.maxAge = ex.maxAge ∧
      r.externalId = ex.externalId ∧
      r.city = city ∧
      r.state = state ∧
      ∀ p ∈ st.treeSpecies, p.id ≠ r.id := by
  refine ⟨{ id := st.nextId, commonName := ex.commonName,
            scientificName := ex.scientificName, imageUrl := ex.imageUrl,
            habitatDescription := ex.habitatDescription, maxHeight := ex.maxHeight,
            maxAge := ex.maxAge, city := city, state := state,
            externalId := ex.externalId }, ?_, rfl, rfl, rfl, rfl, rfl, rfl, rfl,
          rfl, rfl, ?_⟩
  · unfold resolveStep
    rw [if_neg (by simp [hname]), if_neg (by simp [htree]), hex]
    simp [createTreeSpecies, List.append_assoc]
  · intro p hp
    exact Nat.ne_of_lt (hwf p hp)

/-- Witness for C6: a store already holding the record with externalId "42"
(for Portland, OR) yields, for an Austin, TX search, a cloned record with a
fresh identity and the Austin location. -/
theorem resolver_dedup_clones_descriptive_fields_witness :
    ∃ r : TreeSpeciesRec,
      resolveStep "Austin" "TX"
        ([],
         { treeSpecies := [{ id := 0, commonName := "white oak",
                             scientificName := "Quercus alba", imageUrl := none,
                             habitatDescription := "A big oak.", maxHeight := none,
                             maxAge := none, city := "Portland", state := "OR",
                             externalId := some "42" }], nextId := 1 },
         [])
        { speciesKey := 42, scientificName := "Quercus alba",
          commonName := "white oak", family := "Fagaceae", imageUrl := none,
          description := "" } =
      ([r],
       { treeSpecies := [{ id := 0, commonName := "white oak",
                           scientificName := "Quercus alba", imageUrl := none,
                           habitatDescription := "A big oak.", maxHeight := none,
                           maxAge := none, city := "Portland", state := "OR",
                           externalId := some "42" },
                         r], nextId := 2 },
       [Eff.storeGetByExternalId "42", Eff.storeCreate]) ∧
      r.commonName = "white oak" ∧
      r.scientificName = "Quercus alba" ∧
      r.imageUrl = none ∧
      r.habitatDescription = "A big oak." ∧
      r.maxHeight = none ∧
      r.maxAge = none ∧
      r.externalId = some "42" ∧
      r.city = "Austin" ∧
      r.state = "TX" ∧
      ∀ p ∈ [{ id := 0, commonName := "white oak",
               scientificName := "Quercus alba", imageUrl := none,
               habitatDescription := "A big oak.", maxHeight := none,
               maxAge := none, city := "Portland", state := "OR",
               externalId := some "42" : TreeSpeciesRec }], p.id ≠ r.id :=
  resolver_dedup_clones_descriptive_fields "Austin" "TX" []
    { treeSpecies := [{ id := 0, commonName := "white oak",
                        scientificName := "Quercus alba", imageUrl := none,
                        habitatDescription := "A big oak.", maxHeight := none,
                        maxAge := none, city := "Portland", state := "OR",
                        externalId := some "42" }], nextId := 1 }
    []
    { speciesKey := 42, scientificName := "Quercus alba",
      commonName := "white oak", family := "Fagaceae", imageUrl := none,
      description := "" }
    { id := 0, commonName := "white oak",
      scientificName := "Quercus alba", imageUrl := none,
      habitatDescription := "A big oak.", maxHeight := none,
      maxAge := none, city := "Portland", state := "OR",
      externalId := some "42" }
    (by decide) (by decide) (by decide) (by decide)

/-- Witness for C10's amended statement: on a store whose only record is
located exactly at ("Austin", "TX") the two lookups agree. -/
theorem storage_location_lookup_amended_witness :
    getTreeSpeciesByLocation
      { treeSpecies := [{ id := 3, commonName := "pecan",
                          scientificName := "Carya illinoinensis", imageUrl := none,
                          habitatDescription := "d", maxHeight := none,
                          maxAge := none, city := "Austin", state := "TX",
                          externalId := some "9" }], nextId := 4 }
      "Austin" "TX" =
    dbGetTreeSpeciesByLocation
      [{ id := 3, commonName := "pecan",
         scientificName := "Carya illinoinensis", imageUrl := none,
         habitatDescription := "d", maxHeight := none,
         maxAge := none, city := "Austin", state := "TX",
         externalId := some "9" }]
      "Austin" "TX" :=
  storage_location_lookup_amended.2 _ "Austin" "TX" (by decide)

/-- Lookup after cons. -/
theorem lookupKey_cons (p : Nat × TaxAgg) (m : List (Nat × TaxAgg)) (k : Nat) :
    lookupKey (p :: m) k = if p.1 == k then some p.2 else lookupKey m k := by
  unfold lookupKey
  rw [List.find?_cons]
  cases h : (p.1 == k) <;> simp [h]

/-- Lookup distributes over an in-place update at one key. -/
theorem lookupKey_update (m : List (Nat × TaxAgg)) (k' : Nat) (f : TaxAgg → TaxAgg)
    (k : Nat) :
    lookupKey (m.map (fun p => if p.1 == k' then (p.1, f p.2) else p)) k =
      if k' == k then (lookupKey m k).map f else lookupKey m k := by
  induction m with
  | nil => cases h : (k' == k) <;> simp [lookupKey, h]
  | cons p m ih =>
    simp only [List.map_cons]
    rw [lookupKey_cons, lookupKey_cons]
    by_cases h1 : p.1 = k' <;> by_cases h2 : p.1 = k
    · subst h1; subst h2
      simp
    · subst h1
      have hb2 : (p.1 == k) = false := by simp [h2]
      simp only [beq_iff_eq] at ih
      rw [if_neg h2] at ih
      simp [hb2]
      simpa using ih
    · subst h2
      have hb1 : (p.1 == k') = false := by simp [h1]
      have hb1' : (k' == p.1) = false := by simp [Ne.symm h1]
      simp [hb1, hb1']
    · have hb2 : (p.1 == k) = false := by simp [h2]
      have hb1 : (p.1 == k') = false := by simp [h1]
      simp only [beq_iff_eq] at ih
      simp [hb1, hb2]
      simpa using ih

/-- Lookup after appending a fresh binding. -/
theorem lookupKey_append_single (m : List (Nat × TaxAgg)) (k' : Nat) (a : TaxAgg)
    (k : Nat) :
    lookupKey (m ++ [(k', a)]) k =
      ((lookupKey m k).or (if k' == k then some a else none)) := by
  induction m with
  | nil =>
    cases h : (k' == k) <;> simp [lookupKey, List.find?_cons, h]
  | cons p m ih =>
    rw [List.cons_append, lookupKey_cons, lookupKey_cons]
    cases h : (p.1 == k) <;> simp [h, ih]

/-- One aggregation step, observed at one key: a kept occurrence for that
key increments the count and the bucket of its establishment means
(creating the aggregate on first sight); everything else is unchanged. -/
theorem observeAgg_addOccurrence (m : List (Nat × TaxAgg)) (o : Occurrence) (k : Nat) :
    observeAgg (addOccurrence m o) k =
      if occPasses o && (o.speciesKey == k) then
        match observeAgg m k with
        | some ch => some (ch.1 + 1, bumpHist ch.2 (effMeans o))
        | none => some (1, bumpHist (fun _ => 0) (effMeans o))
      else observeAgg m k := by
  cases hocc : occPasses o
  · simp [addOccurrence, hocc]
  · unfold addOccurrence
    rw [hocc]
    simp only [Bool.true_and, if_true]
    cases hin : lookupKey m o.speciesKey with
    | none =>
      rw [show (none : Option TaxAgg).isSome = false from rfl, if_neg (by simp)]
      unfold observeAgg
      rw [lookupKey_append_single]
      cases hk : (o.speciesKey == k)
      · simp [Option.or]
        cases lookupKey m k <;> simp
      · have hkk : o.speciesKey = k := by simpa using hk
        subst hkk
        rw [hin]
        simp [Option.or, observeAgg, hin]
    | some a =>
      rw [show (some a).isSome = true from rfl, if_pos rfl]
      unfold observeAgg
      rw [lookupKey_update]
      cases hk : (o.speciesKey == k)
      · simp
      · have hkk : o.speciesKey = k := by simpa using hk
        subst hkk
        rw [hin]
        simp [bumpAgg, observeAgg, hin]

/-- Two histogram bumps commute. -/
theorem bumpHist_comm (h : String → Nat) (a b : String) :
    bumpHist (bumpHist h a) b = bumpHist (bumpHist h b) a := by
  funext s
  unfold bumpHist
  by_cases hab : a = b
  · subst hab
    simp
  · by_cases hsa : s = a <;> by_cases hsb : s = b
    · exact absurd (hsa.symm.trans hsb) hab
    · subst hsa
      simp [hab, Ne.symm hab]
    · subst hsb
      simp [hab, Ne.symm hab]
    · simp [hsa, hsb]

/-- Observation-equivalence is preserved by one aggregation step. -/
theorem addOccurrence_obs_congr {m₁ m₂ : List (Nat × TaxAgg)} (o : Occurrence)
    (h : AggObsEquiv m₁ m₂) : AggObsEquiv (addOccurrence m₁ o) (addOccurrence m₂ o) := by
  intro k
  rw [observeAgg_addOccurrence, observeAgg_addOccurrence, h k]

/-- Observation-equivalence is preserved by folding the aggregation loop
over a common suffix. -/
theorem foldl_addOccurrence_obs_congr (l : List Occurrence) :
    ∀ {m₁ m₂ : List (Nat × TaxAgg)}, AggObsEquiv m₁ m₂ →
      AggObsEquiv (l.foldl addOccurrence m₁) (l.foldl addOccurrence m₂) := by
  induction l with
  | nil => intro m₁ m₂ h; exact h
  | cons o l ih =>
    intro m₁ m₂ h
    simp only [List.foldl_cons]
    exact ih (addOccurrence_obs_congr o h)

/-- Two adjacent aggregation steps commute up to observation. -/
theorem addOccurrence_obs_comm (m : List (Nat × TaxAgg)) (x y : Occurrence) :
    AggObsEquiv (addOccurrence (addOccurrence m x) y)
      (addOccurrence (addOccurrence m y) x) := by
  intro k
  rw [observeAgg_addOccurrence, observeAgg_addOccurrence,
    observeAgg_addOccurrence, observeAgg_addOccurrence]
  cases hx : (occPasses x && (x.speciesKey == k)) <;>
    cases hy : (occPasses y && (y.speciesKey == k))
  · rfl
  · rfl
  · rfl
  · cases hm : observeAgg m k with
    | none => simp [bumpHist_comm]
    | some ch => simp [bumpHist_comm]

/-- Permuting the occurrence list leaves the fold observation-equivalent,
for every starting accumulator. -/
theorem perm_foldl_addOccurrence {l₁ l₂ : List Occurrence} (hp : l₁.Perm l₂) :
    ∀ m : List (Nat × TaxAgg),
      AggObsEquiv (l₁.foldl addOccurrence m) (l₂.foldl addOccurrence m) := by
  induction hp with
  | nil => intro m k; rfl
  | cons x hp ih =>
    intro m
    simp only [List.foldl_cons]
    exact ih (addOccurrence m x)
  | swap x y l =>
    intro m
    simp only [List.foldl_cons]
    exact foldl_addOccurrence_obs_congr l (addOccurrence_obs_comm m y x)
  | trans hp₁ hp₂ ih₁ ih₂ =>
    intro m k
    exact (ih₁ m k).trans (ih₂ m k)

/-- Claim C4 counterexample: the aggregate's metadata follows the
first-seen occurrence, so two kept occurrences with the same taxon key but
different scientific names yield different mappings under the two orders —
the permuted input changes the stored `scientificName` at key 1. -/
theorem aggregator_permutation_counterexample :
    ([{ speciesKey := 1, scientificName := "Quercus alba", family := "",
        vernacularName := "", establishmentMeans := "" },
      { speciesKey := 1, scientificName := "Quercus rubra", family := "",
        vernacularName := "", establishmentMeans := "" }] : List Occurrence).Perm
      [{ speciesKey := 1, scientificName := "Quercus rubra", family := "",
         vernacularName := "", establishmentMeans := "" },
       { speciesKey := 1, scientificName := "Quercus alba", family := "",
         vernacularName := "", establishmentMeans := "" }] ∧
    (lookupKey (uniqueTreeSpecies
        [{ speciesKey := 1, scientificName := "Quercus alba", family := "",
           vernacularName := "", establishmentMeans := "" },
         { speciesKey := 1, scientificName := "Quercus rubra", family := "",
           vernacularName := "", establishmentMeans := "" }]) 1).map
        TaxAgg.scientificName ≠
      (lookupKey (uniqueTreeSpecies
        [{ speciesKey := 1, scientificName := "Quercus rubra", family := "",
           vernacularName := "", establishmentMeans := "" },
         { speciesKey := 1, scientificName := "Quercus alba", family := "",
           vernacularName := "", establishmentMeans := "" }]) 1).map
        TaxAgg.scientificName := by
  constructor
  · exact List.Perm.swap _ _ _
  · decide

/-- Claim C4 amended: the Occurrence Aggregator's output is invariant under
permutation of the input list in its observable accumulation data — for
every key, presence of an aggregate, its totalOccurrenceCount and its whole
establishment-means histogram are the same for any two permuted inputs.
(The metadata fields scientificName/family/vernacularName are taken from
the first-seen occurrence of each key and may depend on the order.) -/
theorem aggregator_permutation_amended (l₁ l₂ : List Occurrence)
    (hp : l₁.Perm l₂) (k : Nat) :
    observeAgg (uniqueTreeSpecies l₁) k = observeAgg (uniqueTreeSpecies l₂) k :=
  perm_foldl_addOccurrence hp [] k

/-- Witness for C4's amended statement: a concrete two-element swap of
occurrences of distinct species, observed at key 7. -/
theorem aggregator_permutation_amended_witness :
    observeAgg (uniqueTreeSpecies
      [{ speciesKey := 7, scientificName := "Quercus alba", family := "",
         vernacularName := "", establishmentMeans := "NATIVE" },
       { speciesKey := 8, scientificName := "Pinus strobus", family := "",
         vernacularName := "", establishmentMeans := "" }]) 7 =
    observeAgg (uniqueTreeSpecies
      [{ speciesKey := 8, scientificName := "Pinus strobus", family := "",
         vernacularName := "", establishmentMeans := "" },
       { speciesKey := 7, scientificName := "Quercus alba", family := "",
         vernacularName := "", establishmentMeans := "NATIVE" }]) 7 :=
  aggregator_permutation_amended _ _ (List.Perm.swap _ _ _) 7

/-- Shape of one resolver step: it either leaves the accumulator unchanged,
or appends one record scoped to the requested location to both the result
list and the store, incrementing the identity counter and emitting only
store effects. -/
theorem resolveStep_shape (city state : String) (res : List TreeSpeciesRec)
    (st : Store) (tr : List Eff) (d : DetailRecord) :
    (resolveStep city state (res, st, tr) d = (res, st, tr)) ∨
    (∃ (r : TreeSpeciesRec) (es : List Eff),
      resolveStep city state (res, st, tr) d =
        (res ++ [r],
         { treeSpecies := st.treeSpecies ++ [r], nextId := st.nextId + 1 },
         tr ++ es) ∧
      r.city = city ∧ r.state = state ∧ Eff.gbifCall ∉ es) := by
  unfold resolveStep
  cases h1 : (d.scientificName == "")
  · cases h2 : isLikelyTree d.scientificName d.family d.commonName
    · left
      simp [h1, h2]
    · right
      cases h3 : getTreeSpeciesByExternalId st (toString d.speciesKey) with
      | some existing =>
        refine ⟨{ id := st.nextId, commonName := existing.commonName,
                  scientificName := existing.scientificName,
                  imageUrl := existing.imageUrl,
                  habitatDescription := existing.habitatDescription,
                  maxHeight := existing.maxHeight, maxAge := existing.maxAge,
                  city := city, state := state, externalId := existing.externalId },
          [Eff.storeGetByExternalId (toString d.speciesKey), Eff.storeCreate],
          ?_, rfl, rfl, by simp⟩
        simp [h1, h2, h3, createTreeSpecies, List.append_assoc]
      | none =>
        refine ⟨{ id := st.nextId,
                  commonName := (if d.commonName != "" then d.commonName
                    else d.scientificName),
                  scientificName := d.scientificName,
                  imageUrl := d.imageUrl,
                  habitatDescription := storedHabitatDescription
                    (if d.description != "" then d.description
                     else genericHabitat city state),
                  maxHeight := none, maxAge := none,
                  city := city, state := state,
                  externalId := some (toString d.speciesKey) },
          [Eff.storeGetByExternalId (toString d.speciesKey), Eff.storeCreate],
          ?_, rfl, rfl, by simp⟩
        simp [h1, h2, h3, createTreeSpecies, List.append_assoc]
  · left
    simp [h1]

/-- The resolver loop appends exactly the records it creates — all scoped
to the requested location — to both the result list and the store, bumps
the identity counter once per record, and never emits an occurrence-source
call. -/
theorem resolve_foldl_spec (city state : String) (details : List DetailRecord) :
    ∀ (res : List TreeSpeciesRec) (st : Store) (tr : List Eff),
      ∃ (new : List TreeSpeciesRec) (extra : List Eff),
        details.foldl (resolveStep city state) (res, st, tr) =
          (res ++ new,
           { treeSpecies := st.treeSpecies ++ new, nextId := st.nextId + new.length },
           tr ++ extra) ∧
        (∀ r ∈ new, r.city = city ∧ r.state = state) ∧
        Eff.gbifCall ∉ extra := by
  induction details with
  | nil =>
    intro res st tr
    exact ⟨[], [], by simp, by simp, by simp⟩
  | cons d ds ih =>
    intro res st tr
    simp only [List.foldl_cons]
    rcases resolveStep_shape city state res st tr d with hstep | ⟨r, es, hstep, hc, hs, hes⟩
    · rw [hstep]
      exact ih res st tr
    · rw [hstep]
      obtain ⟨new, extra, hfold, hprops, hgbif⟩ :=
        ih (res ++ [r]) { treeSpecies := st.treeSpecies ++ [r], nextId := st.nextId + 1 }
          (tr ++ es)
      refine ⟨r :: new, es ++ extra, ?_, ?_, ?_⟩
      · rw [hfold]
        have e1 : (res ++ [r]) ++ new = res ++ (r :: new) := by
          rw [List.append_assoc, List.singleton_append]
        have e2 : (st.treeSpecies ++ [r]) ++ new = st.treeSpecies ++ (r :: new) := by
          rw [List.append_assoc, List.singleton_append]
        have e3 : st.nextId + 1 + new.length = st.nextId + (r :: new).length := by
          simp [List.length_cons]
          omega
        have e4 : (tr ++ es) ++ extra = tr ++ (es ++ extra) := by
          rw [List.append_assoc]
        rw [e1, e2, e3, e4]
      · intro x hx
        rcases List.mem_cons.mp hx with hx | hx
        · subst hx
          exact ⟨hc, hs⟩
        · exact hprops x hx
      · intro hmem
        rcases List.mem_append.mp hmem with hmem | hmem
        · exact hes hmem
        · exact hgbif hmem

/-- Claim C7: when the store already holds location-scoped records for the
requested (city, state), the search returns that cached set verbatim, with
no outbound call and no store write (the trace is the single cache read and
the store is unchanged); consequently, if an identical search that started
with an empty cache returned a non-empty list, a second identical search —
under any world — is a pure cache read returning the same list, and the two
searches together issue exactly one occurrence-source call. -/
theorem search_idempotent_cache :
    (∀ (w : World) (st : Store) (city state : String) (l : List TreeSpeciesRec),
        1 ≤ city.length → state.length = 2 →
        isInvalidCityName city = false →
        getTreeSpeciesByLocation st city state = l →
        l ≠ [] →
        searchHandler w st city state =
          (.ok l (city ++ ", " ++ state) l.length, st,
           [Eff.storeGetByLocation city state])) ∧
    (∀ (w w₂ : World) (st : Store) (city state : String)
        (l : List TreeSpeciesRec) (st₁ : Store) (tr₁ : List Eff)
        (loc : String) (n : Nat),
        1 ≤ city.length → state.length = 2 →
        isInvalidCityName city = false →
        getTreeSpeciesByLocation st city state = [] →
        searchHandler w st city state = (.ok l loc n, st₁, tr₁) →
        l ≠ [] →
        searchHandler w₂ st₁ city state =
          (.ok l (city ++ ", " ++ state) l.length, st₁,
           [Eff.storeGetByLocation city state]) ∧
        tr₁.count Eff.gbifCall = 1) := by
  have hA : ∀ (w : World) (st : Store) (city state : String) (l : List TreeSpeciesRec),
      1 ≤ city.length → state.length = 2 →
      isInvalidCityName city = false →
      getTreeSpeciesByLocation st city state = l →
      l ≠ [] →
      searchHandler w st city state =
        (.ok l (city ++ ", " ++ state) l.length, st,
         [Eff.storeGetByLocation city state]) := by
    intro w st city state l h1 h2 hinv hloc hne
    unfold searchHandler
    rw [if_pos ⟨h1, h2⟩, hinv]
    rw [if_neg (by simp)]
    rw [hloc]
    rw [if_pos (List.length_pos.mpr hne)]
  refine ⟨hA, ?_⟩
  intro w w₂ st city state l st₁ tr₁ loc n h1 h2 hinv hcache heq hne
  unfold searchHandler at heq
  rw [if_pos ⟨h1, h2⟩, hinv] at heq
  rw [if_neg (by simp)] at heq
  rw [hcache] at heq
  rw [if_neg (by simp)] at heq
  cases hgeo : w.geocode with
  | none =>
    rw [hgeo] at heq
    simp only [Prod.mk.injEq, SearchOutcome.ok.injEq] at heq
    exact absurd heq.1.1.symm hne
  | some c =>
    rw [hgeo] at heq
    cases hgb : w.gbif with
    | none =>
      rw [hgb] at heq
      simp at heq
    | some occs =>
      rw [hgb] at heq
      simp only [] at heq
      cases hocc : occs.isEmpty
      · rw [hocc] at heq
        rw [if_neg (by simp)] at heq
        cases hnat : (nativeTreeSpeciesOf (uniqueTreeSpecies occs)).isEmpty
        · rw [hnat] at heq
          rw [if_neg (by simp)] at heq
          obtain ⟨new, extra, hfold, hprops, hgbif⟩ :=
            resolve_foldl_spec city state
              ((((sortByCountDesc (nativeTreeSpeciesOf
                  (uniqueTreeSpecies occs))).take 15).map Prod.fst).filterMap w.details)
              [] st
              ([Eff.storeGetByLocation city state, Eff.geocodeCall, Eff.gbifCall] ++
                (((sortByCountDesc (nativeTreeSpeciesOf
                    (uniqueTreeSpecies occs))).take 15).map Prod.fst).map Eff.detailCall)
          rw [hfold] at heq
          simp only [List.nil_append, Prod.mk.injEq, SearchOutcome.ok.injEq] at heq
          obtain ⟨⟨hl, hloc', hn⟩, hst, htr⟩ := heq
          have hfilter : getTreeSpeciesByLocation st₁ city state = l := by
            rw [← hst, ← hl]
            unfold getTreeSpeciesByLocation at hcache ⊢
            simp only [List.filter_append, hcache, List.nil_append]
            apply List.filter_eq_self.mpr
            intro r hr
            obtain ⟨hc, hs⟩ := hprops r hr
            rw [hc, hs]
            simp
          refine ⟨hA w₂ st₁ city state l h1 h2 hinv hfilter hne, ?_⟩
          rw [← htr]
          rw [List.count_append, List.count_append]
          have hc1 : List.count Eff.gbifCall
              [Eff.storeGetByLocation city state, Eff.geocodeCall, Eff.gbifCall] = 1 := by
            simp [List.count_cons]
          have hc2 : List.count Eff.gbifCall
              ((((sortByCountDesc (nativeTreeSpeciesOf
                  (uniqueTreeSpecies occs))).take 15).map Prod.fst).map Eff.detailCall) = 0 := by
            apply List.count_eq_zero.mpr
            intro hmem
            rw [List.mem_map] at hmem
            obtain ⟨x, hx, hxe⟩ := hmem
            exact Eff.noConfusion hxe
          have hc3 : List.count Eff.gbifCall extra = 0 :=
            List.count_eq_zero.mpr hgbif
          rw [hc1, hc2, hc3]
        · rw [hnat] at heq
          rw [if_pos rfl] at heq
          simp only [Prod.mk.injEq, SearchOutcome.ok.injEq] at heq
          exact absurd heq.1.1.symm hne
      · rw [hocc] at heq
        rw [if_pos rfl] at heq
        simp only [Prod.mk.injEq, SearchOutcome.ok.injEq] at heq
        exact absurd heq.1.1.symm hne

/-- Witness for C7: a store already holding one Austin, TX record answers
the search from the cache — same record list, unchanged store, and a trace
consisting of the single cache read. -/
theorem search_idempotent_cache_witness :
    searchHandler { geocode := none, gbif := none, details := fun _ => none }
      { treeSpecies := [{ id := 0, commonName := "pecan",
                          scientificName := "Carya illinoinensis", imageUrl := none,
                          habitatDescription := "d", maxHeight := none,
                          maxAge := none, city := "Austin", state := "TX",
                          externalId := some "9" }], nextId := 1 }
      "Austin" "TX" =
      (.ok [{ id := 0, commonName := "pecan",
              scientificName := "Carya illinoinensis", imageUrl := none,
              habitatDescription := "d", maxHeight := none,
              maxAge := none, city := "Austin", state := "TX",
              externalId := some "9" }] ("Austin" ++ ", " ++ "TX") 1,
       { treeSpecies := [{ id := 0, commonName := "pecan",
                           scientificName := "Carya illinoinensis", imageUrl := none,
                           habitatDescription := "d", maxHeight := none,
                           maxAge := none, city := "Austin", state := "TX",
                           externalId := some "9" }], nextId := 1 },
       [Eff.storeGetByLocation "Austin" "TX"]) :=
  search_idempotent_cache.1
    { geocode := none, gbif := none, details := fun _ => none }
    { treeSpecies := [{ id := 0, commonName := "pecan",
                        scientificName := "Carya illinoinensis", imageUrl := none,
                        habitatDescription := "d", maxHeight := none,
                        maxAge := none, city := "Austin", state := "TX",
                        externalId := some "9" }], nextId := 1 }
    "Austin" "TX"
    [{ id := 0, commonName := "pecan",
       scientificName := "Carya illinoinensis", imageUrl := none,
       habitatDescription := "d", maxHeight := none,
       maxAge := none, city := "Austin", state := "TX",
       externalId := some "9" }]
    (by decide) (by decide) (by decide) (by decide) (by decide)

/-- Claim C8: a non-success occurrence-source response aborts the search
with the service-unavailable outcome (without touching the store), which is
a different outcome constructor from a validation error and from any empty
result; a geocoder not-found yields the successful empty result; and
whenever the occurrence source answers successfully, the outcome is a
success — zero survivors at any stage is never an error. -/
theorem upstream_failure_distinct :
    (∀ (w : World) (st : Store) (city state : String) (c : GeoCoords),
        1 ≤ city.length → state.length = 2 →
        isInvalidCityName city = false →
        getTreeSpeciesByLocation st city state = [] →
        w.geocode = some c →
        w.gbif = none →
        searchHandler w st city state =
          (.serviceUnavailable, st,
           [Eff.storeGetByLocation city state, Eff.geocodeCall, Eff.gbifCall])) ∧
    (∀ (w : World) (st : Store) (city state : String),
        1 ≤ city.length → state.length = 2 →
        isInvalidCityName city = false →
        getTreeSpeciesByLocation st city state = [] →
        w.geocode = none →
        searchHandler w st city state =
          (.ok [] (city ++ ", " ++ state) 0, st,
           [Eff.storeGetByLocation city state, Eff.geocodeCall])) ∧
    (∀ (w : World) (st : Store) (city state : String) (occs : List Occurrence),
        1 ≤ city.length → state.length = 2 →
        w.gbif = some occs →
        ∃ (l : List TreeSpeciesRec) (st' : Store) (tr : List Eff),
          searchHandler w st city state =
            (.ok l (city ++ ", " ++ state) l.length, st', tr)) ∧
    SearchOutcome.serviceUnavailable ≠ SearchOutcome.validationError ∧
    (∀ loc : String, SearchOutcome.serviceUnavailable ≠ .ok [] loc 0) := by
  refine ⟨?_, ?_, ?_, by simp, by intro loc; simp⟩
  · intro w st city state c h1 h2 hinv hcache hgeo hgb
    unfold searchHandler
    rw [if_pos ⟨h1, h2⟩, hinv]
    rw [if_neg (by simp)]
    rw [hcache]
    rw [if_neg (by simp)]
    rw [hgeo, hgb]
  · intro w st city state h1 h2 hinv hcache hgeo
    unfold searchHandler
    rw [if_pos ⟨h1, h2⟩, hinv]
    rw [if_neg (by simp)]
    rw [hcache]
    rw [if_neg (by simp)]
    rw [hgeo]
  · intro w st city state occs h1 h2 hgb
    unfold searchHandler
    rw [if_pos ⟨h1, h2⟩]
    cases hinv : isInvalidCityName city
    · rw [if_neg (by simp)]
      cases hcl : getTreeSpeciesByLocation st city state with
      | nil =>
        rw [if_neg (by simp)]
        cases hgeo : w.geocode with
        | none => exact ⟨[], st, _, rfl⟩
        | some c =>
          rw [hgb]
          simp only []
          cases hocc : occs.isEmpty
          · rw [if_neg (by simp)]
            cases hnat : (nativeTreeSpeciesOf (uniqueTreeSpecies occs)).isEmpty
            · rw [if_neg (by simp)]
              exact ⟨_, _, _, rfl⟩
            · rw [if_pos rfl]
              exact ⟨[], st, _, rfl⟩
          · rw [if_pos rfl]
            exact ⟨[], st, _, rfl⟩
      | cons r rest =>
        rw [if_pos (by simp)]
        exact ⟨r :: rest, st, _, rfl⟩
    · rw [if_pos rfl]
      exact ⟨[], st, _, rfl⟩

/-- Witness for C8: with an empty store, a valid city, a successful geocode
and a failing occurrence source, the search ends service-unavailable with
the store untouched. -/
theorem upstream_failure_distinct_witness :
    searchHandler
      { geocode := some { lat := 30, lon := -97 }, gbif := none,
        details := fun _ => none }
      { treeSpecies := [], nextId := 0 } "Austin" "TX" =
      (.serviceUnavailable, { treeSpecies := [], nextId := 0 },
       [Eff.storeGetByLocation "Austin" "TX", Eff.geocodeCall, Eff.gbifCall]) :=
  upstream_failure_distinct.1
    { geocode := some { lat := 30, lon := -97 }, gbif := none,
      details := fun _ => none }
    { treeSpecies := [], nextId := 0 } "Austin" "TX" { lat := 30, lon := -97 }
    (by decide) (by decide) (by decide) (by decide) (by decide) (by decide)

/-- Claim C9: a request whose city matches one of the invalid patterns is
answered with the empty success result immediately, before the cache
lookup — the store is untouched and the effect trace is empty, so no store
read and no outbound call happens; "Testville" matches (prefix "Test"), so
even a store holding cached records for Testville is answered empty. -/
theorem invalid_city_short_circuit :
    (∀ (w : World) (st : Store) (city state : String),
        1 ≤ city.length → state.length = 2 →
        isInvalidCityName city = true →
        searchHandler w st city state =
          (.ok [] (city ++ ", " ++ state) 0, st, [])) ∧
    isInvalidCityName "Testville" = true ∧
    (∀ (w : World),
        searchHandler w
          { treeSpecies := [{ id := 0, commonName := "red maple",
                              scientificName := "Acer rubrum", imageUrl := none,
                              habitatDescription := "d", maxHeight := none,
                              maxAge := none, city := "Testville", state := "TX",
                              externalId := some "3" }], nextId := 1 }
          "Testville" "TX" =
          (.ok [] ("Testville" ++ ", " ++ "TX") 0,
           { treeSpecies := [{ id := 0, commonName := "red maple",
                               scientificName := "Acer rubrum", imageUrl := none,
                               habitatDescription := "d", maxHeight := none,
                               maxAge := none, city := "Testville", state := "TX",
                               externalId := some "3" }], nextId := 1 },
           [])) := by
  have gen : ∀ (w : World) (st : Store) (city state : String),
      1 ≤ city.length → state.length = 2 →
      isInvalidCityName city = true →
      searchHandler w st city state =
        (.ok [] (city ++ ", " ++ state) 0, st, []) := by
    intro w st city state h1 h2 hinv
    unfold searchHandler
    rw [if_pos ⟨h1, h2⟩, hinv]
    rw [if_pos rfl]
  refine ⟨gen, by decide, ?_⟩
  intro w
  exact gen w _ "Testville" "TX" (by decide) (by decide) (by decide)

/-- Witness for C9: a concrete invalid city ("Fake Town") on an empty store
is answered empty with an empty effect trace. -/
theorem invalid_city_short_circuit_witness :
    searchHandler { geocode := none, gbif := none, details := fun _ => none }
      { treeSpecies := [], nextId := 0 } "Fake Town" "CA" =
      (.ok [] ("Fake Town" ++ ", " ++ "CA") 0, { treeSpecies := [], nextId := 0 }, []) :=
  invalid_city_short_circuit.1
    { geocode := none, gbif := none, details := fun _ => none }
    { treeSpecies := [], nextId := 0 } "Fake Town" "CA"
    (by decide) (by decide) (by decide)
